import Mathlib

/-!
Shallow embedding of the telemetry backend service (src/main.py) and proofs
about it.

The service is a FastAPI application over a PostgreSQL store with two tables
(see init_db, main.py lines 20-58):

  devices(id SERIAL, device_id TEXT UNIQUE NOT NULL, created_at TIMESTAMP)
  measurements(id SERIAL, device_id INTEGER REFERENCES devices(id),
               timestamp BIGINT, timestamp_iso TIMESTAMP,
               accel_x/y/z, gyro_x/y/z, mag_x/y/z,
               light, lat, long, speed, mic_level, pressure  -- DOUBLE PRECISION)

JSON request bodies are modelled by an inductive `JVal`; JSON numbers are
modelled as exact rationals.  The service never performs arithmetic on a
sensor value: values flow from the parsed JSON through psycopg2 into a
DOUBLE PRECISION column and back out verbatim, so an exact-number model is
faithful for the pass-through behaviour the claims are about.

Python dictionary subscription `d[k]` raises KeyError when the key is absent
and TypeError when the subscripted value is not a dictionary; `d.get(k)`
returns None (modelled as JSON null, which psycopg2 maps to SQL NULL) when
the key is absent.  The handler's `except KeyError` catches only KeyError;
any other exception escapes the handler and surfaces as a server fault
(HTTP 500), not as the 400 client error.
-/

inductive JVal where
  | null
  | bool (b : Bool)
  | num (q : Rat)
  | str (s : String)
  | arr (elems : List JVal)
  | obj (fields : List (String × JVal))

/-- Python exceptions that the ingest handler can encounter while taking
apart the parsed JSON payload. -/
inductive PyErr where
  | keyError (k : String)
  | typeError
deriving DecidableEq

/-- Storage-layer (PostgreSQL) errors raised while executing a statement. -/
inductive SqlErr where
  | undefinedColumn (c : String)
  | typeMismatch
  | invalidInput
deriving DecidableEq

/-- What an endpoint invocation produces besides its state change: a normal
response, an HTTPException raised deliberately by the handler (the only one in
the source is the 400 for a malformed top-level payload), or an uncaught
Python/storage exception, which FastAPI surfaces as a server fault (500). -/
inductive ApiErr where
  | httpError (code : Nat) (detail : String)
  | pyError (e : PyErr)
  | sqlError (e : SqlErr)
deriving DecidableEq

/-- Python subscription `v[k]` on a parsed-JSON value, string key:
KeyError when a dictionary lacks the key, TypeError when `v` is not a
dictionary (main.py lines 92-93 and 105-125 rely on this). -/
def JVal.sub : JVal → String → Except PyErr JVal
  | .obj fields, k =>
    match fields.lookup k with
    | some v => .ok v
    | none => .error (.keyError k)
  | _, _ => .error .typeError

/-- Python `record.get(k)`: None when absent, modelled as JSON null (psycopg2
maps None to SQL NULL).  Only ever applied to values already known to be
dictionaries (a subscription on the same value succeeded first). -/
def JVal.pyGet : JVal → String → JVal
  | .obj fields, k => (fields.lookup k).getD .null
  | _, _ => .null

/-- Python iteration `for record in records`: lists yield their elements,
dictionaries their keys, strings their characters; other values raise
TypeError (main.py line 104). -/
def pyIter : JVal → Except PyErr (List JVal)
  | .arr elems => .ok elems
  | .obj fields => .ok (fields.map (fun kv => JVal.str kv.1))
  | .str s => .ok (s.toList.map (fun c => JVal.str (String.mk [c])))
  | _ => .error .typeError

/-- One row of the devices table.  `created_at` (server-assigned, never read
by any endpoint the claims concern) is omitted. -/
structure Device where
  id : Nat
  device_id : String
deriving DecidableEq

/-- One row of the measurements table, in declared column order.  The SERIAL
`id` column is never selected by the service and is omitted. -/
structure Measurement where
  device_id : Nat
  timestamp : Option Int
  timestamp_iso : Option String
  accel_x : Option Rat
  accel_y : Option Rat
  accel_z : Option Rat
  gyro_x : Option Rat
  gyro_y : Option Rat
  gyro_z : Option Rat
  mag_x : Option Rat
  mag_y : Option Rat
  mag_z : Option Rat
  light : Option Rat
  lat : Option Rat
  long : Option Rat
  speed : Option Rat
  mic_level : Option Rat
  pressure : Option Rat

/-- The database state: the two tables, plus the next value of the devices
SERIAL sequence. -/
structure DB where
  nextDeviceId : Nat
  devices : List Device
  measurements : List Measurement

/-- A freshly initialised database (init_db): both tables empty, the devices
SERIAL sequence at 1. -/
def emptyDB : DB := { nextDeviceId := 1, devices := [], measurements := [] }

/-- main.py lines 66-85.  `SELECT id FROM devices WHERE device_id = %s` —
under the UNIQUE constraint at most one row matches; if none does, a new row
is inserted with the next SERIAL id and committed at once (on a connection of
its own, separate from the one the ingest batch later uses). -/
def get_or_create_device (db : DB) (device_external_id : String) : DB × Nat :=
  match db.devices.find? (fun d => d.device_id == device_external_id) with
  | some d => (db, d.id)
  | none =>
    let newId := db.nextDeviceId
    ({ db with
        nextDeviceId := newId + 1
        devices := db.devices ++ [{ id := newId, device_id := device_external_id }] },
      newId)

/-- The 17 values extracted from one record for the insert tuple
(main.py lines 107-126), before any SQL type conversion, in tuple order
after the leading device_id. -/
structure RowVals where
  timestamp : JVal
  timestampISO : JVal
  accel_x : JVal
  accel_y : JVal
  accel_z : JVal
  gyro_x : JVal
  gyro_y : JVal
  gyro_z : JVal
  mag_x : JVal
  mag_y : JVal
  mag_z : JVal
  light : JVal
  lat : JVal
  long : JVal
  speed : JVal
  micLevel : JVal
  pressure : JVal

/-- One element of the `rows` list built by the ingest loop: the resolved
internal device id followed by the 17 extracted values. -/
structure RowTuple where
  device_id : Nat
  vals : RowVals

/-- main.py lines 104-126: take one record apart.  `record["data"]` is
evaluated first; the remaining accesses happen in tuple order, and the first
failing subscription raises (KeyError for a missing key, TypeError when a
non-dictionary is subscripted).  Nothing catches these exceptions. -/
def extractVals (record : JVal) : Except PyErr RowVals := do
  let data ← record.sub "data"
  let ts := record.pyGet "timestamp"
  let tsISO := record.pyGet "timestampISO"
  let ax ← (← data.sub "accelerometer").sub "x"
  let ay ← (← data.sub "accelerometer").sub "y"
  let az ← (← data.sub "accelerometer").sub "z"
  let gx ← (← data.sub "gyroscope").sub "x"
  let gy ← (← data.sub "gyroscope").sub "y"
  let gz ← (← data.sub "gyroscope").sub "z"
  let mx ← (← data.sub "magnetometer").sub "x"
  let my ← (← data.sub "magnetometer").sub "y"
  let mz ← (← data.sub "magnetometer").sub "z"
  let lightV := data.pyGet "light"
  let latV ← (← data.sub "location").sub "lat"
  let longV ← (← data.sub "location").sub "long"
  let speedV ← (← data.sub "location").sub "speed"
  let micV := data.pyGet "micLevel"
  let pressV ← (← data.sub "barometer").sub "pressure"
  return { timestamp := ts, timestampISO := tsISO
           accel_x := ax, accel_y := ay, accel_z := az
           gyro_x := gx, gyro_y := gy, gyro_z := gz
           mag_x := mx, mag_y := my, mag_z := mz
           light := lightV, lat := latV, long := longV, speed := speedV
           micLevel := micV, pressure := pressV }

/-- Building one element of `rows`: the device id resolved once for the whole
request is placed in front of the extracted values. -/
def extractRecord (device_id : Nat) (record : JVal) : Except PyErr RowTuple :=
  (extractVals record).map (fun v => { device_id := device_id, vals := v })

/-- PostgreSQL conversion of a bound parameter into a DOUBLE PRECISION
column: NULL stays NULL, a JSON number is stored exactly; any other value is
a type error.  (Coercion of numeric text literals is not modelled; no claim
involves string-valued sensor fields.) -/
def toDouble : JVal → Except SqlErr (Option Rat)
  | .null => .ok none
  | .num q => .ok (some q)
  | _ => .error .typeMismatch

/-- PostgreSQL conversion into a BIGINT column: NULL, or an integral number. -/
def toBigint : JVal → Except SqlErr (Option Int)
  | .null => .ok none
  | .num q => if q.den = 1 then .ok (some q.num) else .error .typeMismatch
  | _ => .error .typeMismatch

/-- PostgreSQL conversion into a TIMESTAMP column: NULL, or a string (the
service passes `timestampISO` through verbatim; validation of the timestamp
format itself is not modelled, no claim involves an invalid one). -/
def toTimestampCol : JVal → Except SqlErr (Option String)
  | .null => .ok none
  | .str s => .ok (some s)
  | _ => .error .typeMismatch

/-- The 17 converted column values of one inserted measurement row. -/
structure ColVals where
  timestamp : Option Int
  timestamp_iso : Option String
  accel_x : Option Rat
  accel_y : Option Rat
  accel_z : Option Rat
  gyro_x : Option Rat
  gyro_y : Option Rat
  gyro_z : Option Rat
  mag_x : Option Rat
  mag_y : Option Rat
  mag_z : Option Rat
  light : Option Rat
  lat : Option Rat
  long : Option Rat
  speed : Option Rat
  mic_level : Option Rat
  pressure : Option Rat

/-- Type conversion of one tuple during `execute_batch` of the INSERT
(main.py lines 128-145), column by column in the INSERT's column order. -/
def convVals (v : RowVals) : Except SqlErr ColVals := do
  let ts ← toBigint v.timestamp
  let tsISO ← toTimestampCol v.timestampISO
  let ax ← toDouble v.accel_x
  let ay ← toDouble v.accel_y
  let az ← toDouble v.accel_z
  let gx ← toDouble v.gyro_x
  let gy ← toDouble v.gyro_y
  let gz ← toDouble v.gyro_z
  let mx ← toDouble v.mag_x
  let my ← toDouble v.mag_y
  let mz ← toDouble v.mag_z
  let lightV ← toDouble v.light
  let latV ← toDouble v.lat
  let longV ← toDouble v.long
  let speedV ← toDouble v.speed
  let micV ← toDouble v.micLevel
  let pressV ← toDouble v.pressure
  return { timestamp := ts, timestamp_iso := tsISO
           accel_x := ax, accel_y := ay, accel_z := az
           gyro_x := gx, gyro_y := gy, gyro_z := gz
           mag_x := mx, mag_y := my, mag_z := mz
           light := lightV, lat := latV, long := longV, speed := speedV
           mic_level := micV, pressure := pressV }

/-- Attach the device_id column (always a valid INTEGER, it is the resolved
internal id) to the converted values, giving the persisted row. -/
def ColVals.withDevice (c : ColVals) (device_id : Nat) : Measurement :=
  { device_id := device_id
    timestamp := c.timestamp
    timestamp_iso := c.timestamp_iso
    accel_x := c.accel_x, accel_y := c.accel_y, accel_z := c.accel_z
    gyro_x := c.gyro_x, gyro_y := c.gyro_y, gyro_z := c.gyro_z
    mag_x := c.mag_x, mag_y := c.mag_y, mag_z := c.mag_z
    light := c.light
    lat := c.lat, long := c.long, speed := c.speed
    mic_level := c.mic_level, pressure := c.pressure }

/-- Conversion of one `rows` element into a measurements row. -/
def rowToMeasurement (t : RowTuple) : Except SqlErr Measurement :=
  (convVals t.vals).map (fun c => c.withDevice t.device_id)

/-- The ingest loop (main.py line 104): records are processed in order and
the first failing extraction aborts the whole request. -/
def extractRows (device_id : Nat) : List JVal → Except PyErr (List RowTuple)
  | [] => .ok []
  | r :: rest => do
    let t ← extractRecord device_id r
    let ts ← extractRows device_id rest
    return t :: ts

/-- `execute_batch` (main.py line 128): every tuple is converted and
inserted, and the first conversion failure fails the whole statement batch
(nothing is committed in that case). -/
def convRows : List RowTuple → Except SqlErr (List Measurement)
  | [] => .ok []
  | t :: ts => do
    let m ← rowToMeasurement t
    let ms ← convRows ts
    return m :: ms

/-- A record is well-formed when the Python extraction succeeds and every
extracted value is acceptable to its target column type. -/
def okB {ε α : Type} : Except ε α → Bool
  | .ok _ => true
  | .error _ => false

def recordOk (record : JVal) : Bool :=
  match extractVals record with
  | .ok v => okB (convVals v)
  | .error _ => false

/-- main.py lines 91-95: the try block reads `payload["metadata"]["deviceId"]`
and then `payload["records"]`; only KeyError is caught (and turned into the
400 response), a TypeError escapes the handler. -/
def extractTop (payload : JVal) : Except PyErr (JVal × JVal) := do
  let metadata ← payload.sub "metadata"
  let deviceIdVal ← metadata.sub "deviceId"
  let recordsVal ← payload.sub "records"
  return (deviceIdVal, recordsVal)

/-- The JSON body of a successful ingest response (main.py lines 151-155). -/
structure IngestResp where
  status : String
  inserted : Nat
  device : String
deriving DecidableEq

/-- POST /ingest (main.py lines 88-155).  FastAPI has already checked that
the body is a JSON object before the handler runs.  Steps, in source order:

1. extract `metadata.deviceId` and `records`; a KeyError becomes the 400
   HTTPException, a TypeError escapes as a server fault — in either case
   nothing has been written;
2. resolve or create the device row (committed immediately on its own
   connection), keeping the external id for the response;
3. iterate over `records`, extracting each tuple; the first failure aborts
   the request with an uncaught exception — the ingest connection has
   written nothing, so only the device row (step 2) survives;
4. `execute_batch` the INSERT and commit: the whole batch is committed, or,
   when a conversion fails, nothing is (the commit on line 147 is never
   reached and the connection is closed, rolling back).

A non-string `metadata.deviceId` makes the SELECT inside
get_or_create_device fail on its bound parameter before anything is
written; that storage error is returned with the state unchanged. -/
def ingest (db : DB) (payload : JVal) : DB × Except ApiErr IngestResp :=
  match extractTop payload with
  | .error (.keyError _) => (db, .error (.httpError 400 "Formato JSON inválido"))
  | .error .typeError => (db, .error (.pyError .typeError))
  | .ok (.str device_external_id, recordsVal) =>
    let db1 := (get_or_create_device db device_external_id).1
    let device_id := (get_or_create_device db device_external_id).2
    match pyIter recordsVal with
    | .error e => (db1, .error (.pyError e))
    | .ok records =>
      match extractRows device_id records with
      | .error e => (db1, .error (.pyError e))
      | .ok rows =>
        match convRows rows with
        | .error e => (db1, .error (.sqlError e))
        | .ok ms =>
          ({ db1 with measurements := db1.measurements ++ ms },
            .ok { status := "ok", inserted := rows.length, device := device_external_id })
  | .ok (_, _) => (db, .error (.sqlError .typeMismatch))

/-- The columns of the measurements table, from CREATE TABLE
(main.py lines 32-54). -/
def measurementsTableColumns : List String :=
  ["id", "device_id", "timestamp", "timestamp_iso",
   "accel_x", "accel_y", "accel_z", "gyro_x", "gyro_y", "gyro_z",
   "mag_x", "mag_y", "mag_z", "light", "lat", "long", "speed",
   "mic_level", "pressure"]

/-- The columns named by the SELECT of GET /last/... (main.py lines 182-195),
in select-list order.  Note `latitude` and `longitude`: the table's columns
are named `lat` and `long`. -/
def lastSelectColumns : List String :=
  ["timestamp_iso", "accel_x", "accel_y", "accel_z",
   "gyro_x", "gyro_y", "gyro_z", "mag_x", "mag_y", "mag_z",
   "light", "latitude", "longitude", "speed", "pressure"]

/-- PostgreSQL analysis of a select list: the first column reference that
does not name a column of the table is an undefined-column error, raised
when the statement is executed, regardless of how many rows would match. -/
def checkColumns : List String → Except SqlErr Unit
  | [] => .ok ()
  | c :: cs =>
    if measurementsTableColumns.contains c then checkColumns cs
    else .error (.undefinedColumn c)

def optNum : Option Rat → JVal
  | none => .null
  | some q => .num q

def optStr : Option String → JVal
  | none => .null
  | some s => .str s

/-- The JSON value a named column of a measurements row renders to.  The
names `id`, `latitude`, `longitude` have no stored value; they are
unreachable here because `checkColumns` rejects a select list naming a
column the table does not have (and `id` is never selected). -/
def colVal (m : Measurement) : String → JVal
  | "device_id" => .num (m.device_id : Rat)
  | "timestamp" => match m.timestamp with
    | none => .null
    | some n => .num (n : Rat)
  | "timestamp_iso" => optStr m.timestamp_iso
  | "accel_x" => optNum m.accel_x
  | "accel_y" => optNum m.accel_y
  | "accel_z" => optNum m.accel_z
  | "gyro_x" => optNum m.gyro_x
  | "gyro_y" => optNum m.gyro_y
  | "gyro_z" => optNum m.gyro_z
  | "mag_x" => optNum m.mag_x
  | "mag_y" => optNum m.mag_y
  | "mag_z" => optNum m.mag_z
  | "light" => optNum m.light
  | "lat" => optNum m.lat
  | "long" => optNum m.long
  | "speed" => optNum m.speed
  | "mic_level" => optNum m.mic_level
  | "pressure" => optNum m.pressure
  | _ => .null

/-- `ORDER BY timestamp DESC LIMIT 1`: PostgreSQL sorts NULLs first under
DESC, so a NULL timestamp beats every integer; among equal keys the choice
is unspecified and the model keeps the earliest-inserted row. -/
def tsAfter (a b : Option Int) : Bool :=
  match a, b with
  | none, none => false
  | none, some _ => true
  | some _, none => false
  | some x, some y => y < x

def pickLast (rows : List Measurement) : Option Measurement :=
  rows.foldl
    (fun acc m =>
      match acc with
      | none => some m
      | some best => if tsAfter m.timestamp best.timestamp then some m else some best)
    none

/-- The nested response object of GET /last/... (main.py lines 205-228),
keyed by the positions of the select list. -/
def renderLast (m : Measurement) : JVal :=
  .obj [
    ("timestamp", colVal m "timestamp_iso"),
    ("accelerometer", .obj [("x", colVal m "accel_x"), ("y", colVal m "accel_y"),
                            ("z", colVal m "accel_z")]),
    ("gyroscope", .obj [("x", colVal m "gyro_x"), ("y", colVal m "gyro_y"),
                        ("z", colVal m "gyro_z")]),
    ("magnetometer", .obj [("x", colVal m "mag_x"), ("y", colVal m "mag_y"),
                           ("z", colVal m "mag_z")]),
    ("light", colVal m "light"),
    ("location", .obj [("lat", colVal m "latitude"), ("long", colVal m "longitude"),
                       ("speed", colVal m "speed")]),
    ("pressure", colVal m "pressure")]

/-- GET /last/... (main.py lines 177-229).  The path parameter — the
device's external identifier — is bound directly to `WHERE device_id = %s`,
but measurements.device_id is the INTEGER internal id, so the text parameter
must coerce to an integer; and the select list names `latitude`/`longitude`,
columns the table does not have, so analysis fails before any row is
considered.  Only if both succeeded would the row with the maximum
client-supplied timestamp be rendered, or the no-data sentinel when no row
matches (lines 202-203). -/
def get_last_measurement (db : DB) (device_id : String) : Except SqlErr JVal := do
  checkColumns lastSelectColumns
  let key ← (match device_id.toInt? with
    | some n => Except.ok n
    | none => Except.error SqlErr.invalidInput)
  let rows := db.measurements.filter (fun m => (m.device_id : Int) == key)
  match pickLast rows with
  | none => return .obj [("error", .str "No data found")]
  | some m => return renderLast m

/-- Modelled from the spec: the POST /telemetry handler belongs to the
repository's second, near-identical service variant, which is not under
src/.  Per the spec's interface table it accepts arbitrary JSON, returns a
constant status object, and performs no persistence (it only logs the
payload, which a state model does not record). -/
def telemetry (db : DB) (payload : JVal) : DB × JVal :=
  (db, .obj [("status", .str "ok")])


/-! ## Helper lemmas -/

/-- Device resolution never touches the measurements table. -/
theorem get_or_create_device_measurements (db : DB) (s : String) :
    ((get_or_create_device db s).1).measurements = db.measurements := by
  unfold get_or_create_device
  cases db.devices.find? (fun d => d.device_id == s) <;> rfl

/-- Device resolution never shrinks the devices table. -/
theorem get_or_create_device_nextId (db : DB) (s : String) :
    ((get_or_create_device db s).1).devices = db.devices ∨
    ((get_or_create_device db s).1).devices
      = db.devices ++ [{ id := db.nextDeviceId, device_id := s }] := by
  unfold get_or_create_device
  cases db.devices.find? (fun d => d.device_id == s)
  · exact Or.inr rfl
  · exact Or.inl rfl

/-- After resolution, a device row with the resolved external id exists, and
the returned id is its internal id. -/
theorem get_or_create_device_mem (db : DB) (s : String) :
    ∃ dev ∈ ((get_or_create_device db s).1).devices,
      dev.device_id = s ∧ dev.id = (get_or_create_device db s).2 := by
  unfold get_or_create_device
  cases h : db.devices.find? (fun d => d.device_id == s) with
  | some dv =>
    refine ⟨dv, List.mem_of_find?_eq_some h, ?_, rfl⟩
    have := List.find?_some h
    simpa using this
  | none =>
    exact ⟨{ id := db.nextDeviceId, device_id := s }, by simp, rfl, rfl⟩

/-- Reduction of the top-level field extraction under the lookup hypotheses
describing a well-shaped payload. -/
theorem extractTop_of_lookups (fs mfs : List (String × JVal)) (d : String) (rv : JVal)
    (hm : fs.lookup "metadata" = some (JVal.obj mfs))
    (hd : mfs.lookup "deviceId" = some (JVal.str d))
    (hr : fs.lookup "records" = some rv) :
    extractTop (JVal.obj fs) = .ok (JVal.str d, rv) := by
  simp [extractTop, JVal.sub, hm, hd, hr, bind, Except.bind, pure, Except.pure]

/-- If every record of the list is well-formed, the ingest loop extracts one
tuple per record and the batch conversion produces one measurement row per
record, each carrying the device id the loop was given. -/
theorem rows_of_ok (i : Nat) (rs : List JVal) (hw : ∀ r ∈ rs, recordOk r = true) :
    ∃ ts ms, extractRows i rs = .ok ts ∧ convRows ts = .ok ms ∧
      ts.length = rs.length ∧ ms.length = rs.length ∧
      ∀ m ∈ ms, m.device_id = i := by
  induction rs with
  | nil => exact ⟨[], [], rfl, rfl, rfl, rfl, by simp⟩
  | cons r rest ih =>
    have hr := hw r (by simp)
    cases hv : extractVals r with
    | error e => simp [recordOk, hv] at hr
    | ok v =>
      cases hc : convVals v with
      | error e => simp [recordOk, hv, hc, okB] at hr
      | ok cv =>
        obtain ⟨ts, ms, h1, h2, h3, h4, h5⟩ := ih (fun x hx => hw x (by simp [hx]))
        have he : extractRecord i r = .ok { device_id := i, vals := v } := by
          simp [extractRecord, hv, Except.map]
        have hrm : rowToMeasurement { device_id := i, vals := v } = .ok (cv.withDevice i) := by
          simp [rowToMeasurement, hc, Except.map]
        refine ⟨{ device_id := i, vals := v } :: ts, cv.withDevice i :: ms, ?_, ?_, ?_, ?_, ?_⟩
        · simp [extractRows, he, h1, bind, Except.bind, pure, Except.pure]
        · simp [convRows, hrm, h2, bind, Except.bind, pure, Except.pure]
        · simp [h3]
        · simp [h4]
        · intro m hm
          rcases List.mem_cons.mp hm with h | h
          · rw [h]; rfl
          · exact h5 m h

/-- If some record of the list fails extraction, the ingest loop fails. -/
theorem rows_of_bad (i : Nat) (rs : List JVal)
    (hbad : ∃ r ∈ rs, okB (extractVals r) = false) :
    ∃ e, extractRows i rs = .error e := by
  induction rs with
  | nil => simp at hbad
  | cons a rest ih =>
    obtain ⟨r, hrmem, hrbad⟩ := hbad
    cases hv : extractVals a with
    | error e =>
      refine ⟨e, ?_⟩
      simp [extractRows, extractRecord, hv, Except.map, bind, Except.bind]
    | ok v =>
      rcases List.mem_cons.mp hrmem with h | h
      · rw [h] at hrbad
        rw [hv] at hrbad
        simp [okB] at hrbad
      · obtain ⟨e, he⟩ := ih ⟨r, h, hrbad⟩
        refine ⟨e, ?_⟩
        simp [extractRows, extractRecord, hv, Except.map, he, bind, Except.bind]

/-! ## Concrete inputs used by witnesses and counterexamples -/

/-- A well-formed single-record ingest payload for device "dev-1" with
accelerometer values 1.0, 2.0, 3.0. -/
def demoRecord : JVal :=
  .obj [("data", .obj [
    ("accelerometer", .obj [("x", .num 1), ("y", .num 2), ("z", .num 3)]),
    ("gyroscope", .obj [("x", .num 0), ("y", .num 0), ("z", .num 0)]),
    ("magnetometer", .obj [("x", .num 0), ("y", .num 0), ("z", .num 0)]),
    ("location", .obj [("lat", .num 0), ("long", .num 0), ("speed", .num 0)]),
    ("barometer", .obj [("pressure", .num 1000)])])]

def demoPayload : JVal :=
  .obj [("metadata", .obj [("deviceId", .str "dev-1")]),
        ("records", .arr [demoRecord])]

/-- A record whose data object lacks the required accelerometer.x field. -/
def badRecord : JVal :=
  .obj [("data", .obj [
    ("accelerometer", .obj [("y", .num 2), ("z", .num 3)]),
    ("gyroscope", .obj [("x", .num 0), ("y", .num 0), ("z", .num 0)]),
    ("magnetometer", .obj [("x", .num 0), ("y", .num 0), ("z", .num 0)]),
    ("location", .obj [("lat", .num 0), ("long", .num 0), ("speed", .num 0)]),
    ("barometer", .obj [("pressure", .num 1000)])])]

def badPayload : JVal :=
  .obj [("metadata", .obj [("deviceId", .str "dev-9")]),
        ("records", .arr [badRecord])]

/-- A measurement row for a device, with a given client timestamp and no
sensor values. -/
def blankAt (device_id : Nat) (ts : Option Int) : Measurement :=
  { device_id := device_id, timestamp := ts, timestamp_iso := none
    accel_x := none, accel_y := none, accel_z := none
    gyro_x := none, gyro_y := none, gyro_z := none
    mag_x := none, mag_y := none, mag_z := none
    light := none, lat := none, long := none, speed := none
    mic_level := none, pressure := none }

/-- A database holding device "dev-1" (internal id 1) with measurements at
client timestamps 100, 300, 200. -/
def lastBugDB : DB :=
  { nextDeviceId := 2, devices := [{ id := 1, device_id := "dev-1" }],
    measurements := [blankAt 1 (some 100), blankAt 1 (some 300), blankAt 1 (some 200)] }

/-- A database holding device "dev-2" (internal id 1) with zero measurement
rows. -/
def noDataDB : DB :=
  { nextDeviceId := 2, devices := [{ id := 1, device_id := "dev-2" }],
    measurements := [] }

/-- A database holding exactly one device row, "dev-1" with internal id 1. -/
def oneDeviceDB : DB :=
  { nextDeviceId := 2, devices := [{ id := 1, device_id := "dev-1" }],
    measurements := [] }

/-! ## Claim theorems -/

/-- C1: for every valid ingest payload whose records list contains N
well-formed records, POST /ingest persists exactly N measurement rows, all
carrying the same resolved internal device id, and returns a response whose
inserted field equals N and whose device field is the original external
device id from metadata.deviceId. -/
theorem ingest_persists_batch (db : DB) (fs mfs : List (String × JVal))
    (d : String) (rs : List JVal)
    (hm : fs.lookup "metadata" = some (JVal.obj mfs))
    (hd : mfs.lookup "deviceId" = some (JVal.str d))
    (hr : fs.lookup "records" = some (JVal.arr rs))
    (hw : ∀ r ∈ rs, recordOk r = true) :
    (ingest db (JVal.obj fs)).2
        = .ok { status := "ok", inserted := rs.length, device := d } ∧
    ∃ ms, (ingest db (JVal.obj fs)).1.measurements = db.measurements ++ ms ∧
      ms.length = rs.length ∧
      ∀ m ∈ ms, m.device_id = (get_or_create_device db d).2 := by
  have hTop := extractTop_of_lookups fs mfs d (JVal.arr rs) hm hd hr
  obtain ⟨ts, ms, h1, h2, h3, h4, h5⟩ := rows_of_ok (get_or_create_device db d).2 rs hw
  refine ⟨?_, ms, ?_, h4, h5⟩
  · simp [ingest, hTop, pyIter, h1, h2, h3]
  · simp [ingest, hTop, pyIter, h1, h2, get_or_create_device_measurements]

/-- C1 witness: ingesting the one-record demo payload into a fresh database
persists one row carrying the resolved device id and reports inserted = 1
for device "dev-1". -/
theorem ingest_persists_batch_witness :
    (ingest emptyDB demoPayload).2
        = .ok { status := "ok", inserted := 1, device := "dev-1" } ∧
    ∃ ms, (ingest emptyDB demoPayload).1.measurements = emptyDB.measurements ++ ms ∧
      ms.length = 1 ∧
      ∀ m ∈ ms, m.device_id = (get_or_create_device emptyDB "dev-1").2 :=
  ingest_persists_batch emptyDB
    [("metadata", .obj [("deviceId", .str "dev-1")]), ("records", .arr [demoRecord])]
    [("deviceId", .str "dev-1")] "dev-1" [demoRecord] rfl rfl rfl (by decide)

/-- C2: under the devices UNIQUE constraint, resolution returns the existing
internal id and leaves the state unchanged when a row with the external id
exists; otherwise it appends exactly one new device row carrying the next
generated internal id; and resolving the same external id a second time in
sequence changes nothing (never creates two device rows). -/
theorem get_or_create_device_spec (db : DB) (ext : String)
    (huniq : ∀ d1 ∈ db.devices, ∀ d2 ∈ db.devices,
      d1.device_id = ext → d2.device_id = ext → d1 = d2) :
    (∀ dev ∈ db.devices, dev.device_id = ext →
        get_or_create_device db ext = (db, dev.id)) ∧
    ((∀ dev ∈ db.devices, dev.device_id ≠ ext) →
        (get_or_create_device db ext).1.devices
          = db.devices ++ [{ id := db.nextDeviceId, device_id := ext }] ∧
        (get_or_create_device db ext).2 = db.nextDeviceId) ∧
    get_or_create_device (get_or_create_device db ext).1 ext
      = ((get_or_create_device db ext).1, (get_or_create_device db ext).2) := by
  cases h : db.devices.find? (fun d => d.device_id == ext) with
  | some dv =>
    have hmem := List.mem_of_find?_eq_some h
    have hpred : dv.device_id = ext := by simpa using List.find?_some h
    have hres : get_or_create_device db ext = (db, dv.id) := by
      simp [get_or_create_device, h]
    refine ⟨?_, ?_, ?_⟩
    · intro dev hdev hdid
      rw [huniq dv hmem dev hdev hpred hdid] at hres
      exact hres
    · intro hno
      exact absurd hpred (hno dv hmem)
    · rw [hres]
      exact hres
  | none =>
    have hres : get_or_create_device db ext
        = ({ db with
              nextDeviceId := db.nextDeviceId + 1
              devices := db.devices ++ [{ id := db.nextDeviceId, device_id := ext }] },
           db.nextDeviceId) := by
      simp [get_or_create_device, h]
    refine ⟨?_, ?_, ?_⟩
    · intro dev hdev hdid
      have := List.find?_eq_none.mp h dev hdev
      simp [hdid] at this
    · intro _
      rw [hres]
      exact ⟨rfl, rfl⟩
    · rw [hres]
      simp [get_or_create_device, List.find?_append, h, List.find?]

/-- C2 witness: in a database whose single device row is "dev-1" with
internal id 1, resolving "dev-1" returns 1 without touching the state. -/
theorem get_or_create_device_spec_witness :
    get_or_create_device oneDeviceDB "dev-1" = (oneDeviceDB, 1) :=
  (get_or_create_device_spec oneDeviceDB "dev-1" (by decide)).1
    { id := 1, device_id := "dev-1" } (by simp [oneDeviceDB]) rfl

/-- C3 counterexample: the payload whose metadata field is the number 1 has
no metadata.deviceId field, yet POST /ingest does not answer with the 400
client error: the access raises TypeError, which `except KeyError` does not
catch, so the request fails as a server fault (the storage state is still
untouched). -/
theorem ingest_nonobject_metadata_cex :
    (ingest emptyDB (JVal.obj [("metadata", JVal.num 1), ("records", JVal.arr [])])).2
        = .error (.pyError .typeError) ∧
    (ingest emptyDB (JVal.obj [("metadata", JVal.num 1), ("records", JVal.arr [])])).2
        ≠ .error (.httpError 400 "Formato JSON inválido") ∧
    (ingest emptyDB (JVal.obj [("metadata", JVal.num 1), ("records", JVal.arr [])])).1
        = emptyDB :=
  ⟨rfl, fun h => absurd (Except.error.inj h) (by decide), rfl⟩

/-- C3 amended: for every ingest payload whose top-level access raises
KeyError — metadata absent, deviceId absent from an object-valued metadata,
or records absent once metadata.deviceId was readable — POST /ingest fails
with the 400 client error and the storage state is unchanged (no device row,
no measurement row).  (A payload whose metadata is present but not an
object instead fails with an uncaught TypeError, a server fault — also
before any storage write.) -/
theorem ingest_missing_field_400 (db : DB) (payload : JVal) (k : String)
    (h : extractTop payload = .error (.keyError k)) :
    ingest db payload = (db, .error (.httpError 400 "Formato JSON inválido")) := by
  simp [ingest, h]

/-- C3 amended witness: a payload having metadata.deviceId but no records
field gets the 400 response and leaves a fresh database untouched. -/
theorem ingest_missing_field_400_witness :
    ingest emptyDB (JVal.obj [("metadata", JVal.obj [("deviceId", JVal.str "dev-1")])])
      = (emptyDB, .error (.httpError 400 "Formato JSON inválido")) :=
  ingest_missing_field_400 emptyDB
    (JVal.obj [("metadata", JVal.obj [("deviceId", JVal.str "dev-1")])]) "records" rfl

/-- C4 (code bug): for the device "dev-1" holding measurements at client
timestamps 100, 300 and 200, GET /last/dev-1 does not return the row with
timestamp 300 — the query fails with an undefined-column storage error,
because its select list names `latitude` (and `longitude`) while the table's
columns are `lat` and `long` (and its WHERE clause compares the INTEGER
internal-id column against the external identifier). -/
theorem get_last_measurement_undefined_column :
    get_last_measurement lastBugDB "dev-1" = .error (.undefinedColumn "latitude") ∧
    ∀ v, get_last_measurement lastBugDB "dev-1" ≠ .ok v :=
  ⟨rfl, fun _ h => Except.noConfusion h⟩

/-- C5 (code bug): ingesting one record with accelerometer values 1.0, 2.0,
3.0 for device "dev-1" succeeds and persists exactly those three values, but
the read-back via GET /last/dev-1 does not return them: the read path always
fails with the undefined-column storage error, so the round-trip never
completes. -/
theorem ingest_roundtrip_read_fails :
    (ingest emptyDB demoPayload).2
        = .ok { status := "ok", inserted := 1, device := "dev-1" } ∧
    (ingest emptyDB demoPayload).1.measurements.map
        (fun m => (m.accel_x, m.accel_y, m.accel_z))
        = [(some (1 : Rat), some (2 : Rat), some (3 : Rat))] ∧
    get_last_measurement (ingest emptyDB demoPayload).1 "dev-1"
        = .error (.undefinedColumn "latitude") :=
  ⟨rfl, rfl, rfl⟩

/-- C6 (code bug): for the device "dev-2" with zero stored measurement rows,
GET /last/dev-2 does not return the no-data sentinel object as a normal
response — the query fails with the undefined-column storage error before
any row (or absence of rows) is considered, so the request surfaces as a
server fault. -/
theorem get_last_measurement_no_rows_errors :
    get_last_measurement noDataDB "dev-2" = .error (.undefinedColumn "latitude") ∧
    get_last_measurement noDataDB "dev-2"
        ≠ .ok (JVal.obj [("error", JVal.str "No data found")]) :=
  ⟨rfl, fun h => Except.noConfusion h⟩

/-- C7: for every well-shaped payload in which at least one record fails
field extraction (in particular one missing a required nested sensor field),
the entire batch fails with an uncaught structural error and zero
measurement rows are inserted — there is no partial-batch success. -/
theorem ingest_bad_record_aborts_batch (db : DB) (fs mfs : List (String × JVal))
    (d : String) (rs : List JVal)
    (hm : fs.lookup "metadata" = some (JVal.obj mfs))
    (hd : mfs.lookup "deviceId" = some (JVal.str d))
    (hr : fs.lookup "records" = some (JVal.arr rs))
    (hbad : ∃ r ∈ rs, okB (extractVals r) = false) :
    (∃ e, (ingest db (JVal.obj fs)).2 = .error (.pyError e)) ∧
    (ingest db (JVal.obj fs)).1.measurements = db.measurements := by
  have hTop := extractTop_of_lookups fs mfs d (JVal.arr rs) hm hd hr
  obtain ⟨e, he⟩ := rows_of_bad (get_or_create_device db d).2 rs hbad
  constructor
  · exact ⟨e, by simp [ingest, hTop, pyIter, he]⟩
  · simp [ingest, hTop, pyIter, he, get_or_create_device_measurements]

/-- C7 witness: a batch whose single record lacks accelerometer.x fails and
inserts nothing. -/
theorem ingest_bad_record_aborts_batch_witness :
    (∃ e, (ingest emptyDB badPayload).2 = .error (.pyError e)) ∧
    (ingest emptyDB badPayload).1.measurements = emptyDB.measurements :=
  ingest_bad_record_aborts_batch emptyDB
    [("metadata", .obj [("deviceId", .str "dev-9")]), ("records", .arr [badRecord])]
    [("deviceId", .str "dev-9")] "dev-9" [badRecord] rfl rfl rfl
    ⟨badRecord, by simp, by decide⟩

/-- C8 (modelled from the spec, the handler is in the repository's second
service variant, not under src/): POST /telemetry accepts any JSON payload,
returns the constant status-ok object, and persists nothing — neither table
changes. -/
theorem telemetry_no_persistence (db : DB) (payload : JVal) :
    (telemetry db payload).2 = JVal.obj [("status", JVal.str "ok")] ∧
    (telemetry db payload).1 = db :=
  ⟨rfl, rfl⟩

/-- C9: for every payload whose records field is the empty list and whose
metadata.deviceId is present, POST /ingest succeeds with inserted = 0,
writes no measurement row, and still resolves or creates the device row for
the given external identifier. -/
theorem ingest_empty_records (db : DB) (fs mfs : List (String × JVal)) (d : String)
    (hm : fs.lookup "metadata" = some (JVal.obj mfs))
    (hd : mfs.lookup "deviceId" = some (JVal.str d))
    (hr : fs.lookup "records" = some (JVal.arr [])) :
    (ingest db (JVal.obj fs)).2
        = .ok { status := "ok", inserted := 0, device := d } ∧
    (ingest db (JVal.obj fs)).1.measurements = db.measurements ∧
    (ingest db (JVal.obj fs)).1.devices = (get_or_create_device db d).1.devices ∧
    ∃ dev ∈ (ingest db (JVal.obj fs)).1.devices, dev.device_id = d := by
  have hTop := extractTop_of_lookups fs mfs d (JVal.arr []) hm hd hr
  refine ⟨?_, ?_, ?_, ?_⟩
  · simp [ingest, hTop, pyIter, extractRows, convRows]
  · simp [ingest, hTop, pyIter, extractRows, convRows, get_or_create_device_measurements]
  · simp [ingest, hTop, pyIter, extractRows, convRows]
  · obtain ⟨dev, hmem, hdid, _⟩ := get_or_create_device_mem db d
    refine ⟨dev, ?_, hdid⟩
    simp [ingest, hTop, pyIter, extractRows, convRows]
    exact hmem

/-- C9 witness: an empty-records payload for the unseen device "dev-1" on a
fresh database succeeds with inserted = 0 and registers the device row. -/
theorem ingest_empty_records_witness :
    (ingest emptyDB (JVal.obj [("metadata", JVal.obj [("deviceId", JVal.str "dev-1")]),
        ("records", JVal.arr [])])).2
        = .ok { status := "ok", inserted := 0, device := "dev-1" } ∧
    (ingest emptyDB (JVal.obj [("metadata", JVal.obj [("deviceId", JVal.str "dev-1")]),
        ("records", JVal.arr [])])).1.measurements = emptyDB.measurements ∧
    (ingest emptyDB (JVal.obj [("metadata", JVal.obj [("deviceId", JVal.str "dev-1")]),
        ("records", JVal.arr [])])).1.devices
        = (get_or_create_device emptyDB "dev-1").1.devices ∧
    ∃ dev ∈ (ingest emptyDB (JVal.obj [("metadata", JVal.obj [("deviceId", JVal.str "dev-1")]),
        ("records", JVal.arr [])])).1.devices, dev.device_id = "dev-1" :=
  ingest_empty_records emptyDB
    [("metadata", .obj [("deviceId", .str "dev-1")]), ("records", .arr [])]
    [("deviceId", .str "dev-1")] "dev-1" rfl rfl rfl

/-- C10: ingest is not atomic across device resolution and the measurement
batch.  When a record-level structural failure aborts the batch for a
previously unseen external device id, the request fails and no measurement
row is written, yet the device row created during resolution persists: the
devices table ends up extended by exactly the new row. -/
theorem ingest_failed_batch_keeps_device (db : DB) (fs mfs : List (String × JVal))
    (d : String) (rs : List JVal)
    (hm : fs.lookup "metadata" = some (JVal.obj mfs))
    (hd : mfs.lookup "deviceId" = some (JVal.str d))
    (hr : fs.lookup "records" = some (JVal.arr rs))
    (hnew : ∀ dev ∈ db.devices, dev.device_id ≠ d)
    (hbad : ∃ r ∈ rs, okB (extractVals r) = false) :
    (∃ e, (ingest db (JVal.obj fs)).2 = .error (.pyError e)) ∧
    (ingest db (JVal.obj fs)).1.measurements = db.measurements ∧
    (ingest db (JVal.obj fs)).1.devices
        = db.devices ++ [{ id := db.nextDeviceId, device_id := d }] := by
  have hTop := extractTop_of_lookups fs mfs d (JVal.arr rs) hm hd hr
  obtain ⟨e, he⟩ := rows_of_bad (get_or_create_device db d).2 rs hbad
  have hfind : db.devices.find? (fun dev => dev.device_id == d) = none :=
    List.find?_eq_none.mpr (fun dev hdev => by simp [hnew dev hdev])
  have hid : (get_or_create_device db d).2 = db.nextDeviceId := by
    simp [get_or_create_device, hfind]
  have he2 : extractRows db.nextDeviceId rs = Except.error e := hid ▸ he
  refine ⟨⟨e, by simp [ingest, hTop, pyIter, he]⟩, ?_, ?_⟩
  · simp [ingest, hTop, pyIter, he, get_or_create_device_measurements]
  · simp [ingest, hTop, pyIter, he2, get_or_create_device, hfind]

/-- C10 witness: the bad one-record batch for unseen device "dev-9" on a
fresh database fails, inserts no measurement, and leaves behind the newly
created device row for "dev-9". -/
theorem ingest_failed_batch_keeps_device_witness :
    (∃ e, (ingest emptyDB badPayload).2 = .error (.pyError e)) ∧
    (ingest emptyDB badPayload).1.measurements = emptyDB.measurements ∧
    (ingest emptyDB badPayload).1.devices
        = emptyDB.devices ++ [{ id := emptyDB.nextDeviceId, device_id := "dev-9" }] :=
  ingest_failed_batch_keeps_device emptyDB
    [("metadata", .obj [("deviceId", .str "dev-9")]), ("records", .arr [badRecord])]
    [("deviceId", .str "dev-9")] "dev-9" [badRecord] rfl rfl rfl
    (by simp [emptyDB]) ⟨badRecord, by simp, by decide⟩
